import Mathlib

/-!
Shallow embedding of the chat application's server-side logic:
the Supabase-backed message store (`src/lib/supabaseClient.ts`), the
Gemini text/image adapters (`src/lib/geminiService.ts`), and the tRPC
chat router (`src/server/trpc/routers/chat.ts`).

External effects are made explicit:
* the database is a `Store` value threaded through the handlers; the
  store's insert/select/delete never fail in this model (persistence
  failures are outside the claims considered here);
* each network call to an AI provider is an oracle parameter
  (`GeminiOutcome`, `ProviderBehavior`, `StreamOutcome`) describing what
  the external service would reply if invoked;
* environment variables are booleans recording whether each API key is
  set (`ImageEnv`, or a plain `geminiKey : Bool`);
* `Math.random` for the Pollinations seed is a `seed : Nat` parameter.
-/

namespace ChatApp

/-- Substring test over char lists: does the list contain `p` as a
contiguous sublist?  Models JavaScript `String.prototype.includes`. -/
def includesAux (p : List Char) : List Char → Bool
  | [] => p.isPrefixOf ([] : List Char)
  | c :: cs => p.isPrefixOf (c :: cs) || includesAux p cs

/-- Here `strIncludes s pat` models `s.includes(pat)` in JavaScript. -/
def strIncludes (s pat : String) : Bool :=
  includesAux pat.toList s.toList

/-- Strip leading and trailing whitespace from a char list; models
JavaScript `String.prototype.trim`. -/
def trimChars (l : List Char) : List Char :=
  ((l.dropWhile Char.isWhitespace).reverse.dropWhile Char.isWhitespace).reverse

/-- Function `sanitizeUserInput` from `src/lib/geminiService.ts`:
`input.trim().slice(0, 2000).replace(/[<>]/g, '')`. -/
def sanitizeUserInput (input : String) : String :=
  String.mk (((trimChars input.toList).take 2000).filter fun c => !(c = '<' || c = '>'))

/-! ## Text generation adapter (`generateGeminiResponse`) -/

/-- Result record of the text adapter (interface `GeminiResponse`). -/
structure GeminiResponse where
  response : String
  success : Bool
  error : Option String := none
  deriving Repr, DecidableEq

/-- Oracle for the single external LLM call inside
`generateGeminiResponse`: either it returns text, or it throws an
`Error` whose `.message` is `msg`. -/
inductive GeminiOutcome where
  | ok (text : String)
  | threw (msg : String)
  deriving Repr, DecidableEq

/-- The canned reply stored when the LLM call is not configured. -/
def notConfiguredMessage : String :=
  "I apologize, but the AI service is not configured. Please check the API key configuration."

/-- The canned reply for an `API_KEY` error. -/
def apiKeyErrorMessage : String :=
  "I apologize, but there\x27s an issue with the AI service configuration."

/-- The multi-line quota/overload reply suggesting the `/image` command. -/
def overloadedMessage : String :=
  "🤖 I apologize, but the AI text service is temporarily overloaded due to high demand. Please try again in a few minutes.\n\n💡 **Good news:** Image generation is still working! Try typing `/image` followed by your image description to generate pictures instead.\n\nExample: `/image a beautiful sunset over mountains`"

/-- The generic failure reply of the text adapter. -/
def genericErrorMessage : String :=
  "I apologize, but I\x27m experiencing technical difficulties right now. Please try again later."

/-- Quota/overload detection of `generateGeminiResponse`s catch block:
the `API_KEY` branch is tested first, then the four overload substrings. -/
def isQuotaOverloadError (msg : String) : Bool :=
  !(strIncludes msg "API_KEY") &&
    (strIncludes msg "quota" || strIncludes msg "limit" ||
      strIncludes msg "overloaded" || strIncludes msg "503")

/-- Function `generateGeminiResponse` from `src/lib/geminiService.ts`.
`geminiKey` is the presence of `process.env.GEMINI_API_KEY`; `outcome`
is what the external `model.generateContent` call does. -/
def generateGeminiResponse (geminiKey : Bool) (outcome : GeminiOutcome)
    (_userMessage : String) : GeminiResponse :=
  if !geminiKey then
    { response := notConfiguredMessage, success := false,
      error := some "Gemini API key not configured" }
  else
    match outcome with
    | .ok text => { response := text, success := true }
    | .threw msg =>
      if strIncludes msg "API_KEY" then
        { response := apiKeyErrorMessage, success := false,
          error := some "Invalid API key" }
      else if strIncludes msg "quota" || strIncludes msg "limit" ||
          strIncludes msg "overloaded" || strIncludes msg "503" then
        { response := overloadedMessage, success := false,
          error := some "Service temporarily overloaded" }
      else
        { response := genericErrorMessage, success := false, error := some msg }

/-! ## Image generation adapter (`generateGeminiImage`) -/

/-- One hex digit, upper case (as produced by `encodeURIComponent`). -/
def hexDigit (n : Nat) : Char :=
  if n < 10 then Char.ofNat (48 + n) else Char.ofNat (65 + n - 10)

/-- Characters `encodeURIComponent` leaves unescaped:
`A-Z a-z 0-9 - _ . ! ~ * ' ( )`. -/
def isUnescapedURIChar (c : Char) : Bool :=
  c.isAlphanum || c = '-' || c = '_' || c = '.' || c = '!' || c = '~' ||
    c = '*' || c = Char.ofNat 39 || c = '(' || c = ')'

/-- JavaScript `encodeURIComponent`: percent-encodes every UTF-8 byte
outside the unescaped set. -/
def encodeURIComponent (s : String) : String :=
  String.join (s.toUTF8.toList.map fun b =>
    let n := b.toNat
    if n < 128 && isUnescapedURIChar (Char.ofNat n) then String.mk [Char.ofNat n]
    else String.mk ['%', hexDigit (n / 16), hexDigit (n % 16)])

/-- Which env vars are set when `generateGeminiImage` runs. -/
structure ImageEnv where
  geminiKey : Bool
  hfKey : Bool
  openaiKey : Bool
  deriving Repr, DecidableEq

/-- Oracle for one external image-provider call: `ok payload` is a
usable success (2xx with an image / a usable URL), `fail` is anything
that makes the code fall through — a non-2xx response, a thrown fetch
error, a non-image content type, or a missing URL in the JSON. -/
inductive FetchOutcome where
  | ok (payload : String)
  | fail
  deriving Repr, DecidableEq

/-- What each of the three providers would reply if invoked.
For Hugging Face the payload is the base64 of the returned blob; for
Pollinations the payload is unused (success means the HEAD probe was ok
with an `image/*` content type); for OpenAI the payload is
`result.data[0].url`. -/
structure ProviderBehavior where
  hf : FetchOutcome
  poll : FetchOutcome
  openai : FetchOutcome
  deriving Repr, DecidableEq

/-- The three external image providers, in the order the code tries them. -/
inductive Provider where
  | hf
  | poll
  | openai
  deriving Repr, DecidableEq

/-- Result record of the image adapter (interface `GeminiImageResponse`). -/
structure GeminiImageResponse where
  imageUrl : String
  success : Bool
  error : Option String := none
  deriving Repr, DecidableEq

/-- The Pollinations URL built for a sanitized prompt and random seed. -/
def pollinationsUrl (sanitizedPrompt : String) (seed : Nat) : String :=
  "https://image.pollinations.ai/prompt/" ++ encodeURIComponent sanitizedPrompt ++
    "?width=512&height=512&seed=" ++ toString seed ++ "&model=flux&nologo=true"

/-- The note attached to a paid OpenAI result. -/
def openaiCostNote : String :=
  "Note: This used OpenAI DALL-E (paid). Cost: ~$0.04. Add HUGGINGFACE_API_KEY for free images."

/-- The placeholder image URL returned when every provider fails. -/
def placeholderUrl : String :=
  "https://via.placeholder.com/1024x1024/3498db/ffffff?text=" ++
    encodeURIComponent "Image generation temporarily unavailable. Trying multiple free services..."

/-- The error note attached to the placeholder result. -/
def placeholderNote : String :=
  "Image generation services temporarily unavailable. We tried Hugging Face and Pollinations.ai free services."

/-- Function `generateGeminiImage` from `src/lib/geminiService.ts`.  Returns the
response together with the list of providers actually invoked, in call
order.  `seed` stands for `Math.floor(Math.random() * 1000000)`. -/
def generateGeminiImage (env : ImageEnv) (beh : ProviderBehavior) (seed : Nat)
    (prompt : String) : GeminiImageResponse × List Provider :=
  if !env.geminiKey then
    ({ imageUrl := "", success := false,
       error := some "Gemini API key not configured" }, [])
  else
    let sanitizedPrompt := sanitizeUserInput prompt
    if sanitizedPrompt = "" then
      ({ imageUrl := "", success := false,
         error := some "Prompt cannot be empty" }, [])
    else if sanitizedPrompt.length > 2000 then
      ({ imageUrl := "", success := false,
         error := some "Prompt is too long (max 2000 characters)" }, [])
    else
      match env.hfKey, beh.hf with
      | true, .ok payload =>
        ({ imageUrl := "data:image/png;base64," ++ payload, success := true }, [.hf])
      | _, _ =>
        let hfCalls : List Provider := if env.hfKey then [.hf] else []
        match beh.poll with
        | .ok _ =>
          ({ imageUrl := pollinationsUrl sanitizedPrompt seed, success := true },
            hfCalls ++ [.poll])
        | .fail =>
          match env.openaiKey, beh.openai with
          | true, .ok url =>
            ({ imageUrl := url, success := true, error := some openaiCostNote },
              hfCalls ++ [.poll, .openai])
          | _, _ =>
            let openaiCalls : List Provider := if env.openaiKey then [.openai] else []
            ({ imageUrl := placeholderUrl, success := true,
               error := some placeholderNote },
              hfCalls ++ [.poll] ++ openaiCalls)

/-! ## Streaming text adapter (`generateGeminiStreamResponse`) -/

/-- One yielded element of the streaming adapter
(interface `GeminiStreamResponse`). -/
structure GeminiStreamChunk where
  chunk : String
  done : Bool
  success : Bool
  error : Option String := none
  deriving Repr, DecidableEq

/-- Oracle for the external streaming call: either the stream delivers
a list of text chunks and completes, or it delivers some chunks and
then throws an `Error` with message `msg`. -/
inductive StreamOutcome where
  | ok (chunks : List String)
  | threw (chunks : List String) (msg : String)
  deriving Repr, DecidableEq

/-- Function `generateGeminiStreamResponse` from `src/lib/geminiService.ts`,
modelled as the full list of yielded elements. -/
def generateGeminiStreamResponse (geminiKey : Bool) (outcome : StreamOutcome) :
    List GeminiStreamChunk :=
  if !geminiKey then
    [{ chunk := notConfiguredMessage, done := true, success := false,
       error := some "Gemini API key not configured" }]
  else
    match outcome with
    | .ok chunks =>
      (chunks.map fun c => { chunk := c, done := false, success := true }) ++
        [{ chunk := "", done := true, success := true }]
    | .threw chunks msg =>
      let errorMessage :=
        if strIncludes msg "API_KEY" then apiKeyErrorMessage
        else if strIncludes msg "quota" || strIncludes msg "limit" ||
            strIncludes msg "overloaded" || strIncludes msg "503" then overloadedMessage
        else genericErrorMessage
      (chunks.map fun c => { chunk := c, done := false, success := true }) ++
        [{ chunk := errorMessage, done := true, success := false, error := some msg }]

/-! ## Message store (`src/lib/supabaseClient.ts`) -/

/-- A row of the `chat_history` table (interface `ChatMessage`).
`id` and `created_at` are assigned by the store on insert; timestamps
are modelled as naturals drawn from a monotone clock. -/
structure ChatMessage where
  id : Nat
  user_id : String
  created_at : Nat
  role : String
  content : String
  content_type : String
  deriving Repr, DecidableEq

/-- The external database: the rows of `chat_history` in insertion
order, plus the id counter and clock the store uses on insert. -/
structure Store where
  rows : List ChatMessage
  nextId : Nat
  now : Nat
  deriving Repr, DecidableEq

/-- Method `chatHistoryService.addMessage`: insert one row, with `id` and
`created_at` assigned by the store, and return the inserted row. -/
def addMessage (s : Store) (uid role content ctype : String) :
    ChatMessage × Store :=
  let m : ChatMessage :=
    { id := s.nextId, user_id := uid, created_at := s.now,
      role := role, content := content, content_type := ctype }
  (m, { rows := s.rows ++ [m], nextId := s.nextId + 1, now := s.now + 1 })

/-- Method `chatHistoryService.getMessagesForUser`: select the user's rows,
ordered by `created_at` ascending. -/
def getMessagesForUser (s : Store) (uid : String) : List ChatMessage :=
  (s.rows.filter fun m => m.user_id = uid).insertionSort
    fun a b => a.created_at ≤ b.created_at

/-- Method `chatHistoryService.clearUserHistory`: delete every row whose
`user_id` equals `uid`. -/
def clearUserHistory (s : Store) (uid : String) : Store :=
  { s with rows := s.rows.filter fun m => ¬(m.user_id = uid) }

/-! ## tRPC layer (`src/server/trpc/routers/chat.ts`) -/

/-- tRPC error codes used by the chat router. -/
inductive TRPCErrorCode where
  | UNAUTHORIZED
  | BAD_REQUEST
  | INTERNAL_SERVER_ERROR
  deriving Repr, DecidableEq

/-- A thrown `TRPCError`. -/
structure TRPCErr where
  code : TRPCErrorCode
  message : String
  deriving Repr, DecidableEq

/-- The request context (`src/server/trpc/context.ts`): the user
identity, when the `x-user-id` header was present, reduced to its `sub`. -/
structure Ctx where
  user : Option String
  deriving Repr, DecidableEq

/-- The `isAuthenticated` middleware: rejects a context with no user.
Defined in the router file — but every procedure there is built from
the public `t.procedure`, so no procedure actually runs it. -/
def isAuthenticated (ctx : Ctx) : Except TRPCErr Ctx :=
  match ctx.user with
  | none => .error { code := .UNAUTHORIZED,
                     message := "You must be logged in to access this resource" }
  | some _ => .ok ctx

/-- Result of the `sendMessage` mutation. -/
structure SendResult where
  success : Bool
  userMessage : ChatMessage
  aiMessage : ChatMessage
  aiResponse : String
  geminiSuccess : Bool
  geminiError : Option String
  deriving Repr, DecidableEq

/-- The `sendMessage` procedure: zod validation of the input, then the
mutation body.  The final store is returned alongside the outcome
because a thrown `TRPCError` does not undo database writes. -/
def sendMessage (_ctx : Ctx) (geminiKey : Bool) (outcome : GeminiOutcome)
    (message userId : String) (s : Store) :
    Except TRPCErr SendResult × Store :=
  if message.length < 1 then
    (.error { code := .BAD_REQUEST, message := "Message cannot be empty" }, s)
  else if message.length > 2000 then
    (.error { code := .BAD_REQUEST, message := "Message too long" }, s)
  else
    let sanitizedMessage := sanitizeUserInput message
    let (userMessage, s1) := addMessage s userId "user" sanitizedMessage "text"
    let geminiResponse := generateGeminiResponse geminiKey outcome sanitizedMessage
    let (aiMessage, s2) := addMessage s1 userId "model" geminiResponse.response "text"
    (.ok { success := true, userMessage := userMessage, aiMessage := aiMessage,
           aiResponse := geminiResponse.response,
           geminiSuccess := geminiResponse.success,
           geminiError := geminiResponse.error }, s2)

/-- Result of the `getChatHistory` query. -/
structure HistoryResult where
  success : Bool
  messages : List ChatMessage
  count : Nat
  deriving Repr, DecidableEq

/-- The `getChatHistory` procedure. -/
def getChatHistory (_ctx : Ctx) (userId : String) (s : Store) :
    Except TRPCErr HistoryResult × Store :=
  let messages := getMessagesForUser s userId
  (.ok { success := true, messages := messages, count := messages.length }, s)

/-- Result of the `clearHistory` mutation. -/
structure ClearResult where
  success : Bool
  message : String
  deriving Repr, DecidableEq

/-- The `clearHistory` procedure. -/
def clearHistory (_ctx : Ctx) (userId : String) (s : Store) :
    Except TRPCErr ClearResult × Store :=
  (.ok { success := true, message := "Chat history cleared successfully" },
    clearUserHistory s userId)

/-- Result of the `generateImage` mutation. -/
structure ImageResult where
  success : Bool
  imageUrl : String
  userMessage : ChatMessage
  aiMessage : ChatMessage
  prompt : String
  deriving Repr, DecidableEq

/-- The `generateImage` procedure: zod validation
(`generateImageInput`), then the mutation body.  When the adapter
reports failure the handler throws an internal error; the user's
prompt row, already inserted, stays in the returned store. -/
def generateImage (_ctx : Ctx) (env : ImageEnv) (beh : ProviderBehavior)
    (seed : Nat) (prompt userId : String) (s : Store) :
    Except TRPCErr ImageResult × Store :=
  if prompt.length < 1 then
    (.error { code := .BAD_REQUEST, message := "Prompt cannot be empty" }, s)
  else if prompt.length > 1000 then
    (.error { code := .BAD_REQUEST, message := "Prompt too long" }, s)
  else if userId.length < 1 then
    (.error { code := .BAD_REQUEST, message := "User ID is required" }, s)
  else
    let sanitizedPrompt := sanitizeUserInput prompt
    let (savedUserMessage, s1) := addMessage s userId "user" sanitizedPrompt "text"
    let imageResponse := (generateGeminiImage env beh seed sanitizedPrompt).1
    if !imageResponse.success then
      (.error { code := .INTERNAL_SERVER_ERROR,
                message := imageResponse.error.getD "Failed to generate image" }, s1)
    else
      let (savedAiMessage, s2) :=
        addMessage s1 userId "model" imageResponse.imageUrl "image"
      (.ok { success := true, imageUrl := imageResponse.imageUrl,
             userMessage := savedUserMessage, aiMessage := savedAiMessage,
             prompt := sanitizedPrompt }, s2)

/-- Events yielded by the `sendMessageStream` subscription. -/
inductive StreamEvent where
  | userMessageSaved (m : ChatMessage)
  | chunk (c fullResponse : String) (success : Bool)
  | complete (m : ChatMessage) (fullResponse : String)
  | error (m : Option ChatMessage) (e : String)
  deriving Repr, DecidableEq

/-- The consumer loop of `sendMessageStream`: accumulate non-done
chunks, and on the done marker persist either the full response or the
error message (`chunk.chunk || default`, empty string being falsy). -/
def consumeStream (userId : String) :
    List GeminiStreamChunk → String → Store → List StreamEvent × Store
  | [], _, s => ([], s)
  | c :: rest, full, s =>
    if !c.done then
      let full2 := full ++ c.chunk
      let (evs, s2) := consumeStream userId rest full2 s
      (.chunk c.chunk full2 c.success :: evs, s2)
    else if c.success then
      let (m, s1) := addMessage s userId "model" full "text"
      ([.complete m full], s1)
    else
      let content := if c.chunk = "" then
          "I apologize, but I encountered an error processing your message. Please try again."
        else c.chunk
      let (m, s1) := addMessage s userId "model" content "text"
      ([.error (some m) (c.error.getD "Unknown error")], s1)

/-- The `sendMessageStream` subscription: zod validation, then save the
user message, stream the adapter, and persist the final text. -/
def sendMessageStream (_ctx : Ctx) (geminiKey : Bool) (outcome : StreamOutcome)
    (message userId : String) (s : Store) :
    Except TRPCErr (List StreamEvent) × Store :=
  if message.length < 1 then
    (.error { code := .BAD_REQUEST, message := "Message cannot be empty" }, s)
  else if message.length > 2000 then
    (.error { code := .BAD_REQUEST, message := "Message too long" }, s)
  else
    let sanitizedMessage := sanitizeUserInput message
    let (userMessage, s1) := addMessage s userId "user" sanitizedMessage "text"
    let (evs, s2) :=
      consumeStream userId (generateGeminiStreamResponse geminiKey outcome) "" s1
    (.ok (.userMessageSaved userMessage :: evs), s2)

/-! ## Helper lemmas -/

/-- The sanitizer caps the result at 2000 characters. -/
theorem sanitizeUserInput_length_le (s : String) :
    (sanitizeUserInput s).length ≤ 2000 := by
  have h1 : (sanitizeUserInput s).length =
      (((trimChars s.toList).take 2000).filter fun c => !(c = '<' || c = '>')).length := rfl
  rw [h1]
  calc (((trimChars s.toList).take 2000).filter fun c => !(c = '<' || c = '>')).length
      ≤ ((trimChars s.toList).take 2000).length := List.length_filter_le _ _
    _ ≤ 2000 := by rw [List.length_take]; exact min_le_left _ _

/-- The quota/overload apology mentions the `/image` command. -/
theorem strIncludes_overloadedMessage_image :
    strIncludes overloadedMessage "/image" = true := by decide

/-- Unfolding of `sendMessage` for an input that passes zod validation. -/
theorem sendMessage_valid_eq (ctx : Ctx) (geminiKey : Bool) (outcome : GeminiOutcome)
    (message userId : String) (s : Store)
    (h1 : 1 ≤ message.length) (h2 : message.length ≤ 2000) :
    sendMessage ctx geminiKey outcome message userId s =
      (let g := generateGeminiResponse geminiKey outcome (sanitizeUserInput message)
       let u := addMessage s userId "user" (sanitizeUserInput message) "text"
       let m := addMessage u.2 userId "model" g.response "text"
       (.ok { success := true, userMessage := u.1, aiMessage := m.1,
              aiResponse := g.response, geminiSuccess := g.success,
              geminiError := g.error }, m.2)) := by
  simp only [sendMessage]
  rw [if_neg (by omega), if_neg (by omega)]

/-! ## Claims -/

/-- C1: the image-generation fallback chain tries Hugging Face,
Pollinations, OpenAI in that fixed order and short-circuits on the
first success: if Hugging Face is configured and succeeds, Pollinations
and OpenAI are never invoked; if Hugging Face fails (or is
unconfigured) and Pollinations succeeds, OpenAI is never invoked; and
if both fail and OpenAI is unconfigured, the adapter returns the
placeholder URL with `success = true`.  The hypotheses restrict to
runs that reach the chain at all (Gemini key present, sanitized prompt
non-empty), which the claim presupposes. -/
theorem claim_C1 (env : ImageEnv) (beh : ProviderBehavior) (seed : Nat) (prompt : String)
    (hkey : env.geminiKey = true) (hp : sanitizeUserInput prompt ≠ "") :
    (∀ payload, env.hfKey = true → beh.hf = .ok payload →
      generateGeminiImage env beh seed prompt =
        ({ imageUrl := "data:image/png;base64," ++ payload, success := true }, [.hf])) ∧
    ((env.hfKey = false ∨ beh.hf = .fail) → ∀ p, beh.poll = .ok p →
      (generateGeminiImage env beh seed prompt).1 =
        { imageUrl := pollinationsUrl (sanitizeUserInput prompt) seed, success := true } ∧
      Provider.openai ∉ (generateGeminiImage env beh seed prompt).2) ∧
    ((env.hfKey = false ∨ beh.hf = .fail) → beh.poll = .fail → env.openaiKey = false →
      (generateGeminiImage env beh seed prompt).1 =
        { imageUrl := placeholderUrl, success := true, error := some placeholderNote }) := by
  have hlen : ¬ (sanitizeUserInput prompt).length > 2000 := by
    have := sanitizeUserInput_length_le prompt
    omega
  refine ⟨?_, ?_, ?_⟩
  · intro payload hhf hok
    simp [generateGeminiImage, hkey, hp, hhf, hok, hlen]
  · intro hor p hpoll
    rcases henv : env.hfKey <;> rcases hbf : beh.hf <;>
      simp_all [generateGeminiImage, hkey, hp, hlen, hpoll] <;>
      rw [if_neg (by omega)] <;> simp
  · intro hor hpoll hoai
    rcases henv : env.hfKey <;> rcases hbf : beh.hf <;>
      simp_all [generateGeminiImage, hkey, hp, hlen, hpoll, hoai] <;>
      rw [if_neg (by omega)]

/-- Witness for C1: the three legs of the chain at concrete inputs. -/
theorem claim_C1_witness :
    generateGeminiImage ⟨true, true, true⟩ ⟨.ok "P", .fail, .fail⟩ 0 "cat" =
      ({ imageUrl := "data:image/png;base64," ++ "P", success := true }, [.hf]) ∧
    ((generateGeminiImage ⟨true, false, false⟩ ⟨.fail, .ok "p", .fail⟩ 7 "dog").1 =
      { imageUrl := pollinationsUrl (sanitizeUserInput "dog") 7, success := true } ∧
      Provider.openai ∉ (generateGeminiImage ⟨true, false, false⟩ ⟨.fail, .ok "p", .fail⟩ 7 "dog").2) ∧
    (generateGeminiImage ⟨true, true, false⟩ ⟨.fail, .fail, .ok "u"⟩ 3 "owl").1 =
      { imageUrl := placeholderUrl, success := true, error := some placeholderNote } :=
  ⟨(claim_C1 ⟨true, true, true⟩ ⟨.ok "P", .fail, .fail⟩ 0 "cat" rfl (by decide)).1
      "P" rfl rfl,
   (claim_C1 ⟨true, false, false⟩ ⟨.fail, .ok "p", .fail⟩ 7 "dog" rfl (by decide)).2.1
      (Or.inl rfl) "p" rfl,
   (claim_C1 ⟨true, true, false⟩ ⟨.fail, .fail, .ok "u"⟩ 3 "owl" rfl (by decide)).2.2
      (Or.inr rfl) rfl rfl⟩

/-- Counterexample to C4 as stated: with `GEMINI_API_KEY` unset,
`generateGeminiImage` returns `success = false` on a prompt that is
neither empty nor too long (and with every provider configured and
willing to succeed), so `success = false` is not produced only by the
empty/too-long prompt validation. -/
theorem claim_C4_counterexample :
    (generateGeminiImage ⟨false, true, true⟩ ⟨.ok "img", .ok "p", .ok "url"⟩ 0 "hello").1.success
      = false ∧
    sanitizeUserInput "hello" ≠ "" ∧ (sanitizeUserInput "hello").length ≤ 2000 := by
  decide

/-- C4 (amended): `generateGeminiImage` returns `success = false`
exactly for its early pre-provider failures — missing Gemini API key or
empty sanitized prompt (the too-long check being unreachable) — and
never because of provider outages: past those checks every outcome,
including exhausting all three providers, reports `success = true`. -/
theorem claim_C4_amended (env : ImageEnv) (beh : ProviderBehavior) (seed : Nat)
    (prompt : String) :
    (generateGeminiImage env beh seed prompt).1.success = false ↔
      env.geminiKey = false ∨ sanitizeUserInput prompt = "" := by
  have hlen := sanitizeUserInput_length_le prompt
  simp only [generateGeminiImage]
  split
  · rename_i h
    simp only [Bool.not_eq_true'] at h
    simp [h]
  · rename_i h
    simp only [Bool.not_eq_true', Bool.not_eq_false] at h
    split
    · rename_i h2
      simp [h, h2]
    · rename_i h2
      split
      · omega
      · split
        · simp [h, h2]
        · split
          · simp [h, h2]
          · split
            · simp [h, h2]
            · simp [h, h2]

/-- C9: with `GEMINI_API_KEY` unset, `generateGeminiImage` returns
`success = false` with error `"Gemini API key not configured"` at once,
invoking none of the three providers and never reaching the
placeholder; consequently `generateImage` aborts with an internal
error (after having persisted the user's prompt row). -/
theorem claim_C9 (env : ImageEnv) (beh : ProviderBehavior) (seed : Nat) (prompt : String)
    (hkey : env.geminiKey = false) :
    generateGeminiImage env beh seed prompt =
      ({ imageUrl := "", success := false,
         error := some "Gemini API key not configured" }, []) ∧
    ∀ ctx userId s, 1 ≤ prompt.length → prompt.length ≤ 1000 → 1 ≤ userId.length →
      (generateImage ctx env beh seed prompt userId s).1 =
        .error { code := .INTERNAL_SERVER_ERROR,
                 message := "Gemini API key not configured" } ∧
      (generateImage ctx env beh seed prompt userId s).2.rows =
        s.rows ++ [{ id := s.nextId, user_id := userId, created_at := s.now,
                     role := "user", content := sanitizeUserInput prompt,
                     content_type := "text" }] := by
  have herr : ∀ p, generateGeminiImage env beh seed p =
      ({ imageUrl := "", success := false,
         error := some "Gemini API key not configured" }, []) := by
    intro p
    simp [generateGeminiImage, hkey]
  refine ⟨herr prompt, ?_⟩
  intro ctx userId s h1 h2 h3
  simp only [generateImage]
  rw [if_neg (by omega), if_neg (by omega), if_neg (by omega)]
  simp [herr, addMessage]

/-- Witness for C9 at a concrete unconfigured environment. -/
theorem claim_C9_witness :
    generateGeminiImage ⟨false, false, false⟩ ⟨.fail, .fail, .fail⟩ 0 "a red cat" =
      ({ imageUrl := "", success := false,
         error := some "Gemini API key not configured" }, []) ∧
    (generateImage ⟨some "u1"⟩ ⟨false, false, false⟩ ⟨.fail, .fail, .fail⟩ 0
        "a red cat" "u1" ⟨[], 0, 0⟩).1 =
      .error { code := .INTERNAL_SERVER_ERROR,
               message := "Gemini API key not configured" } ∧
    (generateImage ⟨some "u1"⟩ ⟨false, false, false⟩ ⟨.fail, .fail, .fail⟩ 0
        "a red cat" "u1" ⟨[], 0, 0⟩).2.rows =
      [{ id := 0, user_id := "u1", created_at := 0, role := "user",
         content := sanitizeUserInput "a red cat", content_type := "text" }] := by
  have h := claim_C9 ⟨false, false, false⟩ ⟨.fail, .fail, .fail⟩ 0 "a red cat" rfl
  have h2 := h.2 ⟨some "u1"⟩ "u1" ⟨[], 0, 0⟩ (by decide) (by decide) (by decide)
  exact ⟨h.1, h2.1, h2.2⟩

/-- C10: `sanitizeUserInput` always returns at most 2000 characters
(trim, then slice to 2000, then strip angle brackets only shortens), so
the "Prompt is too long (max 2000 characters)" branch of
`generateGeminiImage` is unreachable: no input ever produces that
error. -/
theorem claim_C10 :
    (∀ s, (sanitizeUserInput s).length ≤ 2000) ∧
    ∀ env beh seed prompt,
      (generateGeminiImage env beh seed prompt).1.error ≠
        some "Prompt is too long (max 2000 characters)" := by
  refine ⟨sanitizeUserInput_length_le, ?_⟩
  intro env beh seed prompt
  have hlen := sanitizeUserInput_length_le prompt
  simp only [generateGeminiImage]
  split
  · simp
  · split
    · simp
    · split
      · omega
      · split
        · simp
        · split
          · simp
          · split
            · simp [openaiCostNote]
            · simp [placeholderNote]

/-- Filtering a user's rows out of the store leaves nothing of that
user to select. -/
theorem filter_user_clear (l : List ChatMessage) (u : String) :
    (l.filter fun m => ¬(m.user_id = u)).filter (fun m => m.user_id = u) = [] := by
  induction l with
  | nil => rfl
  | cons m t ih =>
    by_cases hm : m.user_id = u <;> simp [List.filter_cons, hm, ih]

/-- Deleting one user's rows does not change what another user's
select sees. -/
theorem filter_user_other (l : List ChatMessage) (u1 u2 : String) (h : u1 ≠ u2) :
    (l.filter fun m => ¬(m.user_id = u1)).filter (fun m => m.user_id = u2) =
      l.filter fun m => m.user_id = u2 := by
  rw [List.filter_filter]
  apply List.filter_congr
  intro a _
  by_cases h2 : a.user_id = u2
  · have h1 : ¬ a.user_id = u1 := fun hh => h (hh.symm.trans h2)
    have hne : ¬ (u2 = u1) := fun hh => h hh.symm
    simp [h1, h2, hne]
  · simp [h2]

/-- C2: for every valid message, when the text adapter succeeds (key
configured, external call returns `text`) `sendMessage` appends exactly
two rows to the store — the sanitized user message as `user`/`text`,
then the adapter's response as `model`/`text`, in that order by
creation time — and returns both rows plus the response text and the
success flag. -/
theorem claim_C2 (ctx : Ctx) (text message userId : String) (s : Store)
    (h1 : 1 ≤ message.length) (h2 : message.length ≤ 2000) :
    ∃ r, (sendMessage ctx true (.ok text) message userId s).1 = .ok r ∧
      (sendMessage ctx true (.ok text) message userId s).2.rows =
        s.rows ++ [r.userMessage, r.aiMessage] ∧
      r.userMessage.user_id = userId ∧ r.userMessage.role = "user" ∧
      r.userMessage.content = sanitizeUserInput message ∧
      r.userMessage.content_type = "text" ∧
      r.aiMessage.user_id = userId ∧ r.aiMessage.role = "model" ∧
      r.aiMessage.content = text ∧ r.aiMessage.content_type = "text" ∧
      r.userMessage.created_at < r.aiMessage.created_at ∧
      r.aiResponse = text ∧ r.geminiSuccess = true ∧ r.success = true := by
  rw [sendMessage_valid_eq ctx true (.ok text) message userId s h1 h2]
  refine ⟨_, rfl, ?_⟩
  simp [addMessage, generateGeminiResponse]

/-- Witness for C2: the spec's own scenario,
`sendMessage("Hello", "u1")` with the adapter returning "Hi there". -/
theorem claim_C2_witness :
    ∃ r, (sendMessage ⟨some "u1"⟩ true (.ok "Hi there") "Hello" "u1" ⟨[], 0, 0⟩).1 =
        .ok r ∧
      (sendMessage ⟨some "u1"⟩ true (.ok "Hi there") "Hello" "u1" ⟨[], 0, 0⟩).2.rows =
        ([] : List ChatMessage) ++ [r.userMessage, r.aiMessage] ∧
      r.userMessage.user_id = "u1" ∧ r.userMessage.role = "user" ∧
      r.userMessage.content = sanitizeUserInput "Hello" ∧
      r.userMessage.content_type = "text" ∧
      r.aiMessage.user_id = "u1" ∧ r.aiMessage.role = "model" ∧
      r.aiMessage.content = "Hi there" ∧ r.aiMessage.content_type = "text" ∧
      r.userMessage.created_at < r.aiMessage.created_at ∧
      r.aiResponse = "Hi there" ∧ r.geminiSuccess = true ∧ r.success = true :=
  claim_C2 ⟨some "u1"⟩ "Hi there" "Hello" "u1" ⟨[], 0, 0⟩ (by decide) (by decide)

/-- C3: when the external text call throws an error matched by the
quota/overload detection (no "API_KEY" substring, and one of "quota",
"limit", "overloaded", "503"), `sendMessage` still stores a
`model`/`text` row whose content contains the `/image` command
suggestion, completes without a transport-level error, and reports the
failure only through `geminiSuccess = false`. -/
theorem claim_C3 (ctx : Ctx) (errMsg message userId : String) (s : Store)
    (h1 : 1 ≤ message.length) (h2 : message.length ≤ 2000)
    (hq : isQuotaOverloadError errMsg = true) :
    ∃ r, (sendMessage ctx true (.threw errMsg) message userId s).1 = .ok r ∧
      r.success = true ∧ r.geminiSuccess = false ∧
      (sendMessage ctx true (.threw errMsg) message userId s).2.rows =
        s.rows ++ [r.userMessage, r.aiMessage] ∧
      r.aiMessage.role = "model" ∧ r.aiMessage.content_type = "text" ∧
      strIncludes r.aiMessage.content "/image" = true := by
  have hg : generateGeminiResponse true (.threw errMsg) (sanitizeUserInput message) =
      { response := overloadedMessage, success := false,
        error := some "Service temporarily overloaded" } := by
    simp only [isQuotaOverloadError, Bool.and_eq_true, Bool.not_eq_true'] at hq
    simp [generateGeminiResponse, hq.1, hq.2]
  rw [sendMessage_valid_eq ctx true (.threw errMsg) message userId s h1 h2]
  refine ⟨_, rfl, ?_⟩
  simp [addMessage, hg, strIncludes_overloadedMessage_image]

/-- Witness for C3 at a concrete quota error. -/
theorem claim_C3_witness :
    ∃ r, (sendMessage ⟨some "u1"⟩ true (.threw "429 quota exceeded") "Hello" "u1"
        ⟨[], 0, 0⟩).1 = .ok r ∧
      r.success = true ∧ r.geminiSuccess = false ∧
      (sendMessage ⟨some "u1"⟩ true (.threw "429 quota exceeded") "Hello" "u1"
        ⟨[], 0, 0⟩).2.rows =
        ([] : List ChatMessage) ++ [r.userMessage, r.aiMessage] ∧
      r.aiMessage.role = "model" ∧ r.aiMessage.content_type = "text" ∧
      strIncludes r.aiMessage.content "/image" = true :=
  claim_C3 ⟨some "u1"⟩ "429 quota exceeded" "Hello" "u1" ⟨[], 0, 0⟩
    (by decide) (by decide) (by decide)

/-- C5: when the image adapter reports failure, `generateImage` throws
an internal error and writes no `model` row, but the user's prompt row
has already been persisted and stays in the store — a one-sided turn —
whereas `sendMessage` (for any adapter outcome) always appends the full
user/model pair. -/
theorem claim_C5 (ctx : Ctx) (env : ImageEnv) (beh : ProviderBehavior) (seed : Nat)
    (prompt userId : String) (s : Store)
    (hp1 : 1 ≤ prompt.length) (hp2 : prompt.length ≤ 1000) (hu : 1 ≤ userId.length)
    (hfail : (generateGeminiImage env beh seed (sanitizeUserInput prompt)).1.success
      = false) :
    (∃ e, (generateImage ctx env beh seed prompt userId s).1 = .error e ∧
       e.code = .INTERNAL_SERVER_ERROR) ∧
    (generateImage ctx env beh seed prompt userId s).2.rows =
      s.rows ++ [{ id := s.nextId, user_id := userId, created_at := s.now,
                   role := "user", content := sanitizeUserInput prompt,
                   content_type := "text" }] ∧
    (∀ key outcome message, 1 ≤ message.length → message.length ≤ 2000 →
      ∃ r, (sendMessage ctx key outcome message userId s).1 = .ok r ∧
        (sendMessage ctx key outcome message userId s).2.rows =
          s.rows ++ [r.userMessage, r.aiMessage]) := by
  have hunf : generateImage ctx env beh seed prompt userId s =
      (.error { code := .INTERNAL_SERVER_ERROR,
                message := ((generateGeminiImage env beh seed
                  (sanitizeUserInput prompt)).1.error).getD "Failed to generate image" },
       { rows := s.rows ++ [{ id := s.nextId, user_id := userId, created_at := s.now,
                              role := "user", content := sanitizeUserInput prompt,
                              content_type := "text" }],
         nextId := s.nextId + 1, now := s.now + 1 }) := by
    simp only [generateImage]
    rw [if_neg (by omega), if_neg (by omega), if_neg (by omega)]
    simp [addMessage, hfail]
  refine ⟨⟨_, by rw [hunf], rfl⟩, by rw [hunf], ?_⟩
  intro key outcome message hm1 hm2
  rw [sendMessage_valid_eq ctx key outcome message userId s hm1 hm2]
  exact ⟨_, rfl, by simp [addMessage]⟩

/-- Witness for C5: an unconfigured environment makes the adapter
report failure; `sendMessage` at the same store still pairs up. -/
theorem claim_C5_witness :
    (∃ e, (generateImage ⟨some "u1"⟩ ⟨false, false, false⟩ ⟨.fail, .fail, .fail⟩ 0
        "a red cat" "u1" ⟨[], 0, 0⟩).1 = .error e ∧
      e.code = .INTERNAL_SERVER_ERROR) ∧
    (generateImage ⟨some "u1"⟩ ⟨false, false, false⟩ ⟨.fail, .fail, .fail⟩ 0
        "a red cat" "u1" ⟨[], 0, 0⟩).2.rows =
      ([] : List ChatMessage) ++
        [{ id := 0, user_id := "u1", created_at := 0, role := "user",
           content := sanitizeUserInput "a red cat", content_type := "text" }] ∧
    (∀ key outcome message, 1 ≤ message.length → message.length ≤ 2000 →
      ∃ r, (sendMessage ⟨some "u1"⟩ key outcome message "u1" ⟨[], 0, 0⟩).1 = .ok r ∧
        (sendMessage ⟨some "u1"⟩ key outcome message "u1" ⟨[], 0, 0⟩).2.rows =
          ([] : List ChatMessage) ++ [r.userMessage, r.aiMessage]) :=
  claim_C5 ⟨some "u1"⟩ ⟨false, false, false⟩ ⟨.fail, .fail, .fail⟩ 0
    "a red cat" "u1" ⟨[], 0, 0⟩ (by decide) (by decide) (by decide) (by decide)

/-- Counterexample to C6 as stated: a call with no user identity on
the context (`user = none`) does not fail with an unauthorized error —
`sendMessage` completes successfully and inserts two rows, because
every procedure of the router is built from the public `t.procedure`
("temporarily public for testing") and never runs `isAuthenticated`. -/
theorem claim_C6_counterexample :
    (sendMessage ⟨none⟩ true (.ok "Hi there") "Hello" "u1" ⟨[], 0, 0⟩).1.isOk = true ∧
    (sendMessage ⟨none⟩ true (.ok "Hi there") "Hello" "u1" ⟨[], 0, 0⟩).2.rows.length
      = 2 := by
  decide

/-- C6 (amended): the `isAuthenticated` middleware exists and would
reject a context with no user identity with an UNAUTHORIZED error, but
no operation of the chat router uses it: all five are public, proceed
to store/adapter work regardless of identity, and none ever produces
an UNAUTHORIZED error (their only errors are BAD_REQUEST from input
validation and INTERNAL_SERVER_ERROR from the image branch). -/
theorem claim_C6_amended (ctx : Ctx) (h : ctx.user = none) :
    isAuthenticated ctx =
      .error { code := .UNAUTHORIZED,
               message := "You must be logged in to access this resource" } ∧
    (∀ key outcome message userId s e,
      (sendMessage ctx key outcome message userId s).1 = .error e →
        e.code = .BAD_REQUEST) ∧
    (∀ userId s e, (getChatHistory ctx userId s).1 ≠ .error e) ∧
    (∀ userId s e, (clearHistory ctx userId s).1 ≠ .error e) ∧
    (∀ key outcome message userId s e,
      (sendMessageStream ctx key outcome message userId s).1 = .error e →
        e.code = .BAD_REQUEST) ∧
    (∀ env beh seed prompt userId s e,
      (generateImage ctx env beh seed prompt userId s).1 = .error e →
        e.code ≠ .UNAUTHORIZED) := by
  refine ⟨by simp [isAuthenticated, h], ?_, ?_, ?_, ?_, ?_⟩
  · intro key outcome message userId s e he
    simp only [sendMessage] at he
    split at he
    · simp at he
      simp [← he]
    · split at he
      · simp at he
        simp [← he]
      · simp at he
  · intro userId s e he
    simp [getChatHistory] at he
  · intro userId s e he
    simp [clearHistory] at he
  · intro key outcome message userId s e he
    simp only [sendMessageStream] at he
    split at he
    · simp at he
      simp [← he]
    · split at he
      · simp at he
        simp [← he]
      · simp at he
  · intro env beh seed prompt userId s e he
    simp only [generateImage] at he
    split at he
    · simp at he
      simp [← he]
    · split at he
      · simp at he
        simp [← he]
      · split at he
        · simp at he
          simp [← he]
        · simp only [addMessage] at he
          split at he
          · simp at he
            simp [← he]
          · simp at he

/-- Witness for C6 (amended) at the empty context. -/
theorem claim_C6_amended_witness :
    isAuthenticated ⟨none⟩ =
      .error { code := .UNAUTHORIZED,
               message := "You must be logged in to access this resource" } :=
  (claim_C6_amended ⟨none⟩ rfl).1

/-- C7: every input the zod schemas reject — an empty or over-2000-char
message for `sendMessage`, an empty or over-1000-char prompt for
`generateImage` — yields a BAD_REQUEST validation error with the store
untouched (no insert happens). -/
theorem claim_C7 (ctx : Ctx) (key : Bool) (outcome : GeminiOutcome)
    (env : ImageEnv) (beh : ProviderBehavior) (seed : Nat)
    (message prompt userId : String) (s : Store)
    (hm : message.length = 0 ∨ message.length > 2000)
    (hp : prompt.length = 0 ∨ prompt.length > 1000) :
    (∃ e, sendMessage ctx key outcome message userId s = (.error e, s) ∧
       e.code = .BAD_REQUEST) ∧
    (∃ e, generateImage ctx env beh seed prompt userId s = (.error e, s) ∧
       e.code = .BAD_REQUEST) := by
  constructor
  · rcases hm with hm | hm
    · refine ⟨{ code := .BAD_REQUEST, message := "Message cannot be empty" }, ?_, rfl⟩
      simp only [sendMessage]
      rw [if_pos (by omega)]
    · refine ⟨{ code := .BAD_REQUEST, message := "Message too long" }, ?_, rfl⟩
      simp only [sendMessage]
      rw [if_neg (by omega), if_pos (by omega)]
  · rcases hp with hp | hp
    · refine ⟨{ code := .BAD_REQUEST, message := "Prompt cannot be empty" }, ?_, rfl⟩
      simp only [generateImage]
      rw [if_pos (by omega)]
    · refine ⟨{ code := .BAD_REQUEST, message := "Prompt too long" }, ?_, rfl⟩
      simp only [generateImage]
      rw [if_neg (by omega), if_pos (by omega)]

set_option maxRecDepth 8192 in
/-- Witness for C7: an empty message and a 1001-character prompt. -/
theorem claim_C7_witness :
    (∃ e, sendMessage ⟨some "u1"⟩ true (.ok "Hi") "" "u1" ⟨[], 0, 0⟩ =
       (.error e, ⟨[], 0, 0⟩) ∧ e.code = .BAD_REQUEST) ∧
    (∃ e, generateImage ⟨some "u1"⟩ ⟨true, true, true⟩ ⟨.fail, .fail, .fail⟩ 0
       (String.mk (List.replicate 1001 'a')) "u1" ⟨[], 0, 0⟩ =
       (.error e, ⟨[], 0, 0⟩) ∧ e.code = .BAD_REQUEST) :=
  claim_C7 ⟨some "u1"⟩ true (.ok "Hi") ⟨true, true, true⟩ ⟨.fail, .fail, .fail⟩ 0
    "" (String.mk (List.replicate 1001 'a')) "u1" ⟨[], 0, 0⟩
    (Or.inl rfl) (Or.inr (by decide))

/-- C8: `clearHistory(u1)` deletes all of `u1`'s rows and nothing else:
a subsequent `getChatHistory(u1)` returns the empty list with count 0,
while a distinct user `u2`'s rows — and what `getMessagesForUser`
returns for `u2` — are unchanged. -/
theorem claim_C8 (ctx : Ctx) (u1 u2 : String) (s : Store) (h : u1 ≠ u2) :
    (clearHistory ctx u1 s).1 =
      .ok { success := true, message := "Chat history cleared successfully" } ∧
    (getChatHistory ctx u1 (clearHistory ctx u1 s).2).1 =
      .ok { success := true, messages := [], count := 0 } ∧
    getMessagesForUser (clearHistory ctx u1 s).2 u2 = getMessagesForUser s u2 ∧
    ((clearHistory ctx u1 s).2.rows.filter fun m => m.user_id = u2) =
      (s.rows.filter fun m => m.user_id = u2) := by
  refine ⟨rfl, ?_, ?_, ?_⟩
  · have h1 : getMessagesForUser (clearHistory ctx u1 s).2 u1 = [] := by
      show ((s.rows.filter _).filter _).insertionSort _ = []
      rw [filter_user_clear]
      rfl
    simp [getChatHistory, h1]
  · show ((s.rows.filter _).filter _).insertionSort _ = _
    rw [filter_user_other s.rows u1 u2 h]
    rfl
  · exact filter_user_other s.rows u1 u2 h

/-- Witness for C8 on a store holding one row each for two users. -/
theorem claim_C8_witness :
    (clearHistory ⟨some "u1"⟩ "u1"
        ⟨[⟨0, "u1", 0, "user", "a", "text"⟩, ⟨1, "u2", 1, "user", "b", "text"⟩], 2, 2⟩).1 =
      .ok { success := true, message := "Chat history cleared successfully" } ∧
    (getChatHistory ⟨some "u1"⟩ "u1" (clearHistory ⟨some "u1"⟩ "u1"
        ⟨[⟨0, "u1", 0, "user", "a", "text"⟩, ⟨1, "u2", 1, "user", "b", "text"⟩], 2, 2⟩).2).1 =
      .ok { success := true, messages := [], count := 0 } ∧
    getMessagesForUser (clearHistory ⟨some "u1"⟩ "u1"
        ⟨[⟨0, "u1", 0, "user", "a", "text"⟩, ⟨1, "u2", 1, "user", "b", "text"⟩], 2, 2⟩).2 "u2" =
      getMessagesForUser
        ⟨[⟨0, "u1", 0, "user", "a", "text"⟩, ⟨1, "u2", 1, "user", "b", "text"⟩], 2, 2⟩ "u2" ∧
    ((clearHistory ⟨some "u1"⟩ "u1"
        ⟨[⟨0, "u1", 0, "user", "a", "text"⟩, ⟨1, "u2", 1, "user", "b", "text"⟩], 2, 2⟩).2.rows.filter
      fun m => m.user_id = "u2") =
      ((⟨[⟨0, "u1", 0, "user", "a", "text"⟩, ⟨1, "u2", 1, "user", "b", "text"⟩], 2, 2⟩ :
        Store).rows.filter fun m => m.user_id = "u2") :=
  claim_C8 ⟨some "u1"⟩ "u1" "u2"
    ⟨[⟨0, "u1", 0, "user", "a", "text"⟩, ⟨1, "u2", 1, "user", "b", "text"⟩], 2, 2⟩
    (by decide)

end ChatApp
